import Mathlib

/-!
Shallow embedding of the repository `Zepp3/Master-Thesis` (timeGAN subproject).

The repository consists of two procedural scripts:

* `src/timeGAN/timeGAN_opt_seq_len_MonthlyMilkProduction.py` — an Optuna-driven
  hyperparameter search around the external TimeGAN trainer.  The functions
  embedded here are `postprocess_data` (lines 21-48), the global `best_scores`
  (line 51), `objective` (lines 53-109) and `run_TimeGAN` (lines 112-161).
* `src/timeGAN/evaluate_schachtschneider.py` — `test_samples` (lines 6-22),
  which loads a real/fake CSV pair and runs table-evaluator evaluations.

External collaborators (the GAN trainer `timegan`, the data utilities
`cut_data`/`preprocess_data`/`real_data_loading`, and the scorer
`sdv.evaluation.evaluate`) are opaque black boxes per the specification; they
are modelled as function-valued parameters collected in an `Env` record.
Optuna's sampler is modelled by an `Oracle` per trial: `suggest_categorical`
on a list of choices returns an element selected by the oracle, which covers
exactly the elements of the list.  Optuna's sequential `study.optimize` loop
with `study.stop()` support is modelled by `studyLoop`, running trials
numbered 0, 1, 2, … of a fresh study.  Numeric scores are modelled by `ℚ`.
Side effects (the `joblib.dump` checkpoint, the `objective.seq_len` /
`objective.parameters` attributes) are explicit state in `OptState`; the
order of the major steps of a trial is recorded as a `List Step` trace, and
the effects of the evaluation script as a `List EvalEvent` trace.
-/

namespace TimeGANOpt

/-- Entries of the tabular data (the concrete numbers are irrelevant to the
claims; scores and data cells are modelled by `ℚ`). -/
abbrev Row := List ℚ

/-- A 2-dimensional array / plain table. -/
abbrev Table := List Row

/-- A 3-dimensional array of shape (n, seq_len, dim), as produced by
`cut_data` and by the TimeGAN generator. -/
abbrev Cube := List Table

/-- A pandas `DataFrame`: column labels plus rows, as built in
`postprocess_data` (line 43). -/
structure DataFrame where
  columns : List String
  rows : Table
deriving DecidableEq

/-- A value stored in the `parameters` dict of `objective` (lines 81-87):
either a string (the `module`) or an integer. -/
inductive PVal where
  | s (v : String)
  | n (v : Nat)
deriving DecidableEq

/-- The major steps of one optimization trial, in the sense of the spec's
"trial suggestion → data reshaping → model training/generation → scoring →
best-model checkpointing". -/
inductive Step where
  | suggest
  | reshape
  | train
  | score
  | checkpoint
deriving DecidableEq

/-- The mutable cross-trial state of the optimization script: the global
`best_scores` (line 51), the persisted checkpoint file `<database_name>.gz`
(modelled by the number of the trial whose `joblib.dump` call last wrote it,
line 104), and the function attributes `objective.seq_len` and
`objective.parameters` (lines 105-106). -/
structure OptState where
  best_scores : ℚ
  checkpoint : Option Nat
  attr_seq_len : Option Nat
  attr_parameters : Option (List (String × PVal))
deriving DecidableEq

/-- The observable outcome of one call of `objective`: the returned score
(line 109), the updated cross-trial state, the trace of major steps, and
whether `trial.study.stop()` was called (lines 66-67). -/
structure TrialResult where
  scores : ℚ
  state : OptState
  trace : List Step
  stopRequested : Bool

/-- One trial's view of Optuna's sampler: a natural-number choice for each of
the six `suggest_*` calls of `objective` (lines 70-75).  Every oracle value
yields a suggestion inside the fixed domain, and every domain element is
reachable, so quantifying over `Oracle` quantifies over exactly the sampler's
possible outputs. -/
structure Oracle where
  k_module : Nat
  k_hidden : Nat
  k_batch : Nat
  k_layer : Nat
  k_iterations : Nat
  k_seq : Nat

/-- The inputs of the optimization script that come from outside the embedded
code: the data produced by `real_data_loading`/`preprocess_data`
(line 121-124), the command-line arguments, and the three opaque external
functions `cut_data`, `timegan` and `sdv.evaluation.evaluate`. -/
structure Env where
  dataset_train : Table
  dataset_val : Table
  dataset : Table
  columns : List String
  num_samples : Nat
  database_name : String
  shift_numbers : List Int
  cut_data : Table → Nat → Cube
  timegan : Cube → List (String × PVal) → Cube
  evaluate : DataFrame → Table → ℚ

/-- The string `"opt"` passed for `eval_or_opt` in the optimization loop
(line 96). -/
def optMode : String := "opt"

/-- The string `"eval"` passed for `eval_or_opt` after optimization
(line 159). -/
def evalMode : String := "eval"

/-- Optuna's `trial.suggest_categorical`: returns one of the given choices,
selected by the oracle value `k`. -/
def suggest_categorical (choices : List α) (d : α) (k : Nat) : α :=
  choices.getD (k % choices.length) d

/-- Optuna's `trial.suggest_int(low, high, step)`: returns
`low + step * m` for an oracle-selected `m` with `low + step * m ≤ high`. -/
def suggest_int (low high step : Nat) (k : Nat) : Nat :=
  low + step * (k % ((high - low) / step + 1))

/-- Line 70: `module = trial.suggest_categorical("module", ["gru", "lstm", "lstmLN"])`. -/
def suggest_module (k : Nat) : String :=
  suggest_categorical ["gru", "lstm", "lstmLN"] "gru" k

/-- Line 71: `hidden_dim = trial.suggest_categorical("hidden_dim", [6, 12, 24, 48])`. -/
def suggest_hidden_dim (k : Nat) : Nat :=
  suggest_categorical [6, 12, 24, 48] 6 k

/-- Line 72: `batch_size = trial.suggest_categorical("batch_size", [2, 4, 8])`. -/
def suggest_batch_size (k : Nat) : Nat :=
  suggest_categorical [2, 4, 8] 2 k

/-- Line 73: `num_layer = trial.suggest_int("num_layer", 3, 6, 1)`. -/
def suggest_num_layer (k : Nat) : Nat :=
  suggest_int 3 6 1 k

/-- Line 74: `iterations = trial.suggest_categorical("iterations", [100, 1000, 10000])`. -/
def suggest_iterations (k : Nat) : Nat :=
  suggest_categorical [100, 1000, 10000] 100 k

/-- Line 75: `seq_len = trial.suggest_categorical("seq_len", [1, 5, 10])`. -/
def suggest_seq_len (k : Nat) : Nat :=
  suggest_categorical [1, 5, 10] 1 k

/-- Endpoint of the Python slice `x[: len(shift_numbers) * -1]` on a list of
length `len`: for `k > 0` the endpoint `-k` means `len - k` (clamped at 0),
while for `k = 0` the endpoint is `-0 = 0`, i.e. the empty slice. -/
def pySliceEnd (len k : Nat) : Nat :=
  if k = 0 then 0 else len - k

/-- Dataflow of `postprocess_data` (lines 21-48), up to the arguments handed
to the `pd.DataFrame` constructor.  When the variadic `shift_numbers` tuple
differs from `(0,)` the innermost axis is sliced by
`[:, :, : len(shift_numbers) * -1]` (lines 33-34); then the first two axes
are flattened by the double loop of lines 37-40, giving the row list that
line 43 pairs with the given column labels.  The constructor's own
validation (it raises `ValueError` when the label count does not match the
row width) is modelled by `pdDataFrame` below; `postprocess_data_checked`
composes the two and is the full embedding of the function including that
error path. -/
def postprocess_data (eval_or_opt : String) (generated_data : Cube)
    (columns : List String) (seq_len : Nat) (shift_numbers : List Int) :
    DataFrame :=
  let gd :=
    if shift_numbers ≠ [(0 : Int)] then
      generated_data.map (fun mat =>
        mat.map (fun row => row.take (pySliceEnd row.length shift_numbers.length)))
    else generated_data
  { columns := columns, rows := gd.flatten }

/-- The `pd.DataFrame(data=conditioned_dataset, columns=columns)` call of
line 43: pandas validates the number of labels against the width of the
data and raises `ValueError` ("N columns passed, passed data had M
columns") on a mismatch; `none` models that exception.  The rows produced
by slicing a numpy 3-d array all share one width, so for the data this
script builds the uniform per-row check below is exactly that
validation (an empty row list, like pandas, accepts any labels). -/
def pdDataFrame (data : Table) (columns : List String) : Option DataFrame :=
  if ∀ row ∈ data, row.length = columns.length then
    some { columns := columns, rows := data }
  else none

/-- Full embedding of `postprocess_data` (lines 21-48) including the
`ValueError` path of the `pd.DataFrame` constructor at line 43: `none`
means the call raises and no DataFrame is returned. -/
def postprocess_data_checked (eval_or_opt : String) (generated_data : Cube)
    (columns : List String) (seq_len : Nat) (shift_numbers : List Int) :
    Option DataFrame :=
  pdDataFrame
    (postprocess_data eval_or_opt generated_data columns seq_len
      shift_numbers).rows
    columns

/-- The `parameters` dict built on lines 81-87, in insertion order. -/
def mkParameters (module : String) (hidden_dim num_layer iterations batch_size seq_len : Nat) :
    List (String × PVal) :=
  [("module", PVal.s module),
   ("hidden_dim", PVal.n hidden_dim),
   ("num_layer", PVal.n num_layer),
   ("iterations", PVal.n iterations),
   ("batch_size", PVal.n batch_size),
   ("seq_len", PVal.n seq_len)]

/-- The `seq_len` suggested in a trial driven by oracle `orc` (line 75). -/
def trialSeqLen (orc : Oracle) : Nat :=
  suggest_seq_len orc.k_seq

/-- The `parameters` dict of a trial driven by oracle `orc` (lines 81-87). -/
def trialParams (orc : Oracle) : List (String × PVal) :=
  mkParameters (suggest_module orc.k_module) (suggest_hidden_dim orc.k_hidden)
    (suggest_num_layer orc.k_layer) (suggest_iterations orc.k_iterations)
    (suggest_batch_size orc.k_batch) (suggest_seq_len orc.k_seq)

/-- The score computed by a trial driven by oracle `orc`: lines 78-99,
`evaluate(postprocess_data("opt", timegan(cut_data(dataset_train, seq_len),
parameters), columns, seq_len, *shift_numbers), dataset_val)`. -/
def trialScore (env : Env) (orc : Oracle) : ℚ :=
  env.evaluate
    (postprocess_data optMode
      (env.timegan (env.cut_data env.dataset_train (trialSeqLen orc)) (trialParams orc))
      env.columns (trialSeqLen orc) env.shift_numbers)
    env.dataset_val

/-- The score of trial number `t` when trial `t` is driven by `oracles t`. -/
def scoreAt (env : Env) (oracles : Nat → Oracle) (t : Nat) : ℚ :=
  trialScore env (oracles t)

/-- The state of the script before any trial: `best_scores = 0` (line 51),
no checkpoint file, no `objective.seq_len`/`objective.parameters`
attributes. -/
def initState : OptState :=
  { best_scores := 0, checkpoint := none, attr_seq_len := none, attr_parameters := none }

/-- The effect of one trial on the cross-trial state (lines 101-107): on a
strict improvement over `best_scores`, dump the checkpoint and record the
trial's `seq_len` and `parameters`; otherwise leave everything unchanged. -/
def stepState (env : Env) (orc : Oracle) (t : Nat) (st : OptState) : OptState :=
  if trialScore env orc > st.best_scores then
    { best_scores := trialScore env orc, checkpoint := some t,
      attr_seq_len := some (trialSeqLen orc), attr_parameters := some (trialParams orc) }
  else st

/-- Embedding of `objective` (lines 53-109) for trial number `trial_number`
driven by oracle `orc`, started in cross-trial state `st`. -/
def objective (env : Env) (trial_number : Nat) (orc : Oracle) (st : OptState) :
    TrialResult :=
  -- lines 66-67: `if trial.number == 60: trial.study.stop()`
  let stopRequested := trial_number == 60
  -- lines 70-75: hyperparameter suggestions
  let module := suggest_module orc.k_module
  let hidden_dim := suggest_hidden_dim orc.k_hidden
  let batch_size := suggest_batch_size orc.k_batch
  let num_layer := suggest_num_layer orc.k_layer
  let iterations := suggest_iterations orc.k_iterations
  let seq_len := suggest_seq_len orc.k_seq
  -- line 78: `data = cut_data(dataset_train, seq_len)`
  let data := env.cut_data env.dataset_train seq_len
  -- lines 81-87: the parameters dict
  let parameters := mkParameters module hidden_dim num_layer iterations batch_size seq_len
  -- line 93: `generated_data = timegan(data, parameters)`
  let generated_data := env.timegan data parameters
  -- line 96: postprocessing
  let fake_data := postprocess_data optMode generated_data env.columns seq_len env.shift_numbers
  -- line 99: `scores = evaluate(fake_data, dataset_val)`
  let scores := env.evaluate fake_data env.dataset_val
  -- lines 101-107: save best model on strict improvement
  if scores > st.best_scores then
    { scores := scores,
      state := { best_scores := scores, checkpoint := some trial_number,
                 attr_seq_len := some seq_len, attr_parameters := some parameters },
      trace := [Step.suggest, Step.reshape, Step.train, Step.score, Step.checkpoint],
      stopRequested := stopRequested }
  else
    { scores := scores, state := st,
      trace := [Step.suggest, Step.reshape, Step.train, Step.score],
      stopRequested := stopRequested }

/-- List of `count` consecutive trial numbers starting at `start`. -/
def trialNums : Nat → Nat → List Nat
  | _, 0 => []
  | start, count + 1 => start :: trialNums (start + 1) count

/-- Pure mirror of the sequence of state updates performed by the trials
whose numbers are listed. -/
def foldTrials (env : Env) (oracles : Nat → Oracle) : List Nat → OptState → OptState
  | [], st => st
  | t :: ts, st => foldTrials env oracles ts (stepState env (oracles t) t st)

/-- Optuna's sequential `study.optimize(func, n_trials)` loop on a fresh
study: runs trials numbered `t, t+1, …` until `n` trials have run in this
call, stopping early (after the requesting trial completes) once a trial
calls `study.stop()`.  Returns the scores of the executed trials in order,
and the final cross-trial state. -/
def studyLoop (step : Nat → OptState → TrialResult) :
    Nat → Nat → OptState → List ℚ × OptState
  | 0, _, st => ([], st)
  | n + 1, t, st =>
    let r := step t st
    if r.stopRequested then ([r.scores], r.state)
    else
      let rest := studyLoop step n (t + 1) r.state
      (r.scores :: rest.1, rest.2)

/-- The optimization phase of `run_TimeGAN` (lines 127-129): a fresh study
(trial numbers starting at 0, `best_scores = 0`) optimized for `n_trials`
trials of `objective`. -/
def runStudy (env : Env) (oracles : Nat → Oracle) (n_trials : Nat) :
    List ℚ × OptState :=
  studyLoop (fun t st => objective env t (oracles t) st) n_trials 0 initState

/-- The observable outputs of a successful `run_TimeGAN` call: the scores of
the executed trials, the final cross-trial state, and the data of the final
generation phase (lines 150-161). -/
structure RunOutput where
  scores : List ℚ
  finalState : OptState
  gen_seq_len : Nat
  gen_parameters : List (String × PVal)
  fake_csv : DataFrame

/-- Embedding of `run_TimeGAN` (lines 112-161), with the outputs of
`real_data_loading`/`preprocess_data` (lines 121-124) supplied by `env`.
After the study, the checkpoint is reloaded (line 151; the dumped object is
the `timegan` entry point itself, so applying the reloaded model is applying
`env.timegan`), the full dataset is cut with `objective.seq_len` (line 152),
data is generated with `objective.parameters` (line 154), postprocessed with
`eval_or_opt = "eval"` (line 159) and written to
`fake_data_<database_name>.csv` (line 161).  When no trial ever improved on
`best_scores = 0`, no checkpoint file and no attributes exist and the script
dies (`joblib.load` / `AttributeError`), modelled as `none`. -/
def run_TimeGAN (env : Env) (oracles : Nat → Oracle) (n_trials : Nat) :
    Option RunOutput :=
  let r := runStudy env oracles n_trials
  match r.2.checkpoint, r.2.attr_seq_len, r.2.attr_parameters with
  | some _, some sl, some ps =>
    let data := env.cut_data env.dataset sl
    let generated_data := env.timegan data ps
    let fake_data := postprocess_data evalMode generated_data env.columns sl env.shift_numbers
    some { scores := r.1, finalState := r.2, gen_seq_len := sl,
           gen_parameters := ps, fake_csv := fake_data }
  | _, _, _ => none

/-! ### Embedding of `evaluate_schachtschneider.py` -/

/-- The observable effects of `test_samples`, in execution order. -/
inductive EvalEvent where
  | load (real_path fake_path : String)
  | printDf (path : String)
  | teInit (real_df fake_df : String) (cat_cols : List String)
  | visual_evaluation
  | teEvaluate (target_col target_type : String)
  | printScores (synthetic_df real_df : String) (aggregate : Bool)
deriving DecidableEq

/-- The hard-coded real test data path of line 8. -/
def test_path : String := "test_data_schachtschneider.csv"

/-- The synthetic data path `'fake_data_' + database_name + '.csv'` of
line 8. -/
def fake_path (database_name : String) : String :=
  "fake_data_" ++ database_name ++ ".csv"

/-- The categorical columns of line 18. -/
def cat_cols_sch : List String := ["public_holiday", "weekday"]

/-- The regression target column of line 21. -/
def target_col_sch : String := "Lavandula"

/-- The regression target type of line 21. -/
def target_type_sch : String := "regr"

/-- Predicate picking out the dataframe-printing events (lines 10-16),
the only part of `test_samples` guarded by `print_data`. -/
def EvalEvent.isPrintDf : EvalEvent → Bool
  | EvalEvent.printDf _ => true
  | _ => false

/-- Embedding of `test_samples` (lines 6-22 of
`evaluate_schachtschneider.py`) as its trace of effects: `load_data` on the
two CSVs (line 8; `load_data(real, fake)` returns `(test, fake)`), the two
prints guarded by `print_data` (lines 10-16), the `TableEvaluator(test,
fake, cat_cols)` construction (line 19), its visual evaluation (line 20),
its regression evaluation (line 21), and the printed
`evaluate(fake, test, aggregate=False)` (line 22). -/
def test_samples (database_name : String) (print_data : Bool) : List EvalEvent :=
  [EvalEvent.load test_path (fake_path database_name)]
  ++ (if print_data then [EvalEvent.printDf (fake_path database_name)] else [])
  ++ (if print_data then [EvalEvent.printDf test_path] else [])
  ++ [EvalEvent.teInit test_path (fake_path database_name) cat_cols_sch,
      EvalEvent.visual_evaluation,
      EvalEvent.teEvaluate target_col_sch target_type_sch,
      EvalEvent.printScores (fake_path database_name) test_path false]

/-! ### Concrete instances used by witnesses and counterexamples -/

/-- A constant oracle. -/
def oraclesW : Nat → Oracle := fun _ => ⟨0, 0, 0, 0, 0, 0⟩

/-- A concrete environment whose scorer always returns 1. -/
def envW : Env :=
  { dataset_train := [], dataset_val := [], dataset := [], columns := [],
    num_samples := 500, database_name := "timeGAN_default", shift_numbers := [0],
    cut_data := fun _ _ => [], timegan := fun _ _ => [],
    evaluate := fun _ _ => 1 }

/-- A concrete environment whose scorer always returns -1. -/
def envNeg : Env :=
  { envW with evaluate := fun _ _ => -1 }

/-! ### Helper lemmas about the optimization loop -/

/-- Unfolds `objective` into its score, its state update, its trace and its
stop request. -/
lemma objective_eq (env : Env) (t : Nat) (orc : Oracle) (st : OptState) :
    objective env t orc st =
      { scores := trialScore env orc,
        state := stepState env orc t st,
        trace := if trialScore env orc > st.best_scores then
            [Step.suggest, Step.reshape, Step.train, Step.score, Step.checkpoint]
          else [Step.suggest, Step.reshape, Step.train, Step.score],
        stopRequested := t == 60 } := by
  simp only [objective, stepState, trialScore, trialSeqLen, trialParams]
  split <;> rename_i h <;> simp_all

lemma trialNums_length (start count : Nat) :
    (trialNums start count).length = count := by
  induction count generalizing start with
  | zero => simp [trialNums]
  | succ k ih => simp [trialNums, ih]

lemma trialNums_snoc (start count : Nat) :
    trialNums start (count + 1) = trialNums start count ++ [start + count] := by
  induction count generalizing start with
  | zero => simp [trialNums]
  | succ k ih =>
    have h : start + (k + 1) = (start + 1) + k := by omega
    calc trialNums start (k + 1 + 1)
        = start :: trialNums (start + 1) (k + 1) := rfl
      _ = start :: (trialNums (start + 1) k ++ [(start + 1) + k]) := by rw [ih]
      _ = trialNums start (k + 1) ++ [start + (k + 1)] := by rw [h]; rfl

lemma trialNums_mem {start count u : Nat} :
    u ∈ trialNums start count ↔ start ≤ u ∧ u < start + count := by
  induction count generalizing start with
  | zero => simp [trialNums]
  | succ k ih => simp [trialNums, @ih (start + 1)]; omega

lemma foldTrials_append (env : Env) (oracles : Nat → Oracle)
    (l₁ l₂ : List Nat) (st : OptState) :
    foldTrials env oracles (l₁ ++ l₂) st
      = foldTrials env oracles l₂ (foldTrials env oracles l₁ st) := by
  induction l₁ generalizing st with
  | nil => simp [foldTrials]
  | cons t ts ih => simp [foldTrials, ih]

lemma foldTrials_no_update (env : Env) (oracles : Nat → Oracle)
    (l : List Nat) (st : OptState)
    (h : ∀ u ∈ l, scoreAt env oracles u ≤ st.best_scores) :
    foldTrials env oracles l st = st := by
  induction l with
  | nil => rfl
  | cons t ts ih =>
    simp only [scoreAt] at h
    have h1 : ¬ (trialScore env (oracles t) > st.best_scores) :=
      not_lt.mpr (h t (List.mem_cons_self t ts))
    simp only [foldTrials, stepState, if_neg h1]
    exact ih (fun u hu => h u (List.mem_cons_of_mem _ hu))

/-- Characterizes `studyLoop` on `objective`: starting at trial number
`t ≤ 60` with budget `n`, exactly the trials numbered
`t, …, t + min n (61 - t) - 1` execute (the trial numbered 60 requests the
stop), and the state is folded over them. -/
lemma studyLoop_spec (env : Env) (oracles : Nat → Oracle) :
    ∀ (n t : Nat) (st : OptState), t ≤ 60 →
      studyLoop (fun u su => objective env u (oracles u) su) n t st
        = ((trialNums t (min n (61 - t))).map (scoreAt env oracles),
           foldTrials env oracles (trialNums t (min n (61 - t))) st) := by
  intro n
  induction n with
  | zero => intro t st ht; simp [studyLoop, trialNums, foldTrials]
  | succ n ih =>
    intro t st ht
    by_cases h60 : t = 60
    · subst h60
      have hm : min (n + 1) (61 - 60) = 1 := by omega
      rw [hm]
      simp [studyLoop, objective_eq, trialNums, foldTrials, scoreAt]
    · have hm : min (n + 1) (61 - t) = min n (61 - (t + 1)) + 1 := by omega
      rw [hm]
      have hstep := ih (t + 1) (stepState env (oracles t) t st) (by omega)
      have hbeq : (t == 60) = false := by simp [h60]
      simp only [trialNums, List.map_cons, foldTrials]
      simp only [studyLoop, objective_eq, hbeq, Bool.false_eq_true, if_false]
      simp only [objective_eq] at hstep
      rw [hstep]
      simp [scoreAt]

/-- Characterizes `runStudy`: on a fresh study, exactly `min n_trials 61`
trials (numbered from 0) execute. -/
lemma runStudy_eq (env : Env) (oracles : Nat → Oracle) (n_trials : Nat) :
    runStudy env oracles n_trials
      = ((trialNums 0 (min n_trials 61)).map (scoreAt env oracles),
         foldTrials env oracles (trialNums 0 (min n_trials 61)) initState) := by
  have h := studyLoop_spec env oracles n_trials 0 initState (by omega)
  simpa [runStudy] using h

/-- The final cross-trial state of a run whose some trial scored above 0:
the checkpoint, `objective.seq_len` and `objective.parameters` all come from
the first trial achieving the maximal score, and `best_scores` equals that
maximal score. -/
lemma foldTrials_argmax (env : Env) (oracles : Nat → Oracle) (m : Nat)
    (h : ∃ i, i < m ∧ 0 < scoreAt env oracles i) :
    ∃ j, j < m ∧
      (foldTrials env oracles (trialNums 0 m) initState).checkpoint = some j ∧
      (foldTrials env oracles (trialNums 0 m) initState).best_scores
        = scoreAt env oracles j ∧
      (foldTrials env oracles (trialNums 0 m) initState).attr_seq_len
        = some (trialSeqLen (oracles j)) ∧
      (foldTrials env oracles (trialNums 0 m) initState).attr_parameters
        = some (trialParams (oracles j)) ∧
      0 < scoreAt env oracles j ∧
      (∀ i, i < m → scoreAt env oracles i ≤ scoreAt env oracles j) ∧
      (∀ i, i < j → scoreAt env oracles i < scoreAt env oracles j) := by
  induction m with
  | zero => obtain ⟨i, hi, _⟩ := h; omega
  | succ m ih =>
    have hsnoc : trialNums 0 (m + 1) = trialNums 0 m ++ [m] := by
      simpa using trialNums_snoc 0 m
    rw [hsnoc, foldTrials_append]
    set S := foldTrials env oracles (trialNums 0 m) initState with hS
    by_cases hprev : ∃ i, i < m ∧ 0 < scoreAt env oracles i
    · obtain ⟨j, hj, hck, hbest, hseq, hpar, hpos, hmax, hfirst⟩ := ih hprev
      by_cases hm : trialScore env (oracles m) > S.best_scores
      · have hfin : foldTrials env oracles [m] S =
            { best_scores := trialScore env (oracles m), checkpoint := some m,
              attr_seq_len := some (trialSeqLen (oracles m)),
              attr_parameters := some (trialParams (oracles m)) } := by
          simp [foldTrials, stepState, hm]
        have hjm : scoreAt env oracles j < scoreAt env oracles m := by
          simpa [scoreAt, hbest] using hm
        rw [hfin]
        refine ⟨m, by omega, rfl, rfl, rfl, rfl, lt_trans hpos hjm, ?_, ?_⟩
        · intro i hi
          rcases Nat.lt_succ_iff_lt_or_eq.mp hi with hi' | hi'
          · exact le_of_lt (lt_of_le_of_lt (hmax i hi') hjm)
          · subst hi'; exact le_refl _
        · intro i hi
          exact lt_of_le_of_lt (hmax i hi) hjm
      · have hfin : foldTrials env oracles [m] S = S := by
          simp [foldTrials, stepState, hm]
        have hmle : scoreAt env oracles m ≤ scoreAt env oracles j := by
          have h2 := not_lt.mp hm
          simpa [scoreAt, hbest] using h2
        rw [hfin]
        refine ⟨j, by omega, hck, hbest, hseq, hpar, hpos, ?_, hfirst⟩
        intro i hi
        rcases Nat.lt_succ_iff_lt_or_eq.mp hi with hi' | hi'
        · exact hmax i hi'
        · subst hi'; exact hmle
    · push_neg at hprev
      obtain ⟨i, hi, hpos⟩ := h
      have him : i = m := by
        rcases Nat.lt_succ_iff_lt_or_eq.mp hi with hi' | hi'
        · exact absurd hpos (not_lt.mpr (hprev i hi'))
        · exact hi'
      subst him
      have hfold : S = initState := by
        rw [hS]
        refine foldTrials_no_update env oracles _ _ (fun u hu => ?_)
        have hu' : u < i := by
          have h3 := trialNums_mem.mp hu; omega
        exact hprev u hu'
      have hm : trialScore env (oracles i) > initState.best_scores := by
        simpa [scoreAt, initState] using hpos
      have hfin : foldTrials env oracles [i] S =
          { best_scores := trialScore env (oracles i), checkpoint := some i,
            attr_seq_len := some (trialSeqLen (oracles i)),
            attr_parameters := some (trialParams (oracles i)) } := by
        rw [hfold]
        simp [foldTrials, stepState, hm]
      rw [hfin]
      refine ⟨i, by omega, rfl, rfl, rfl, rfl, hpos, ?_, ?_⟩
      · intro u hu
        rcases Nat.lt_succ_iff_lt_or_eq.mp hu with hu' | hu'
        · exact le_trans (hprev u hu') (le_of_lt hpos)
        · subst hu'; exact le_refl _
      · intro u hu
        exact lt_of_le_of_lt (hprev u hu) hpos

lemma foldTrials_best_mono (env : Env) (oracles : Nat → Oracle)
    (l : List Nat) (st : OptState) :
    st.best_scores ≤ (foldTrials env oracles l st).best_scores := by
  induction l generalizing st with
  | nil => exact le_refl _
  | cons t ts ih =>
    refine le_trans ?_ (ih (stepState env (oracles t) t st))
    simp only [stepState]
    split
    · exact le_of_lt (by assumption)
    · exact le_refl _

/-! ### Helper lemmas about the suggestion domains -/

lemma suggest_module_mem (k : Nat) :
    suggest_module k ∈ (["gru", "lstm", "lstmLN"] : List String) := by
  have h : k % 3 = 0 ∨ k % 3 = 1 ∨ k % 3 = 2 := by omega
  rcases h with h | h | h <;> simp [suggest_module, suggest_categorical, h]

lemma suggest_hidden_dim_mem (k : Nat) :
    suggest_hidden_dim k ∈ ([6, 12, 24, 48] : List Nat) := by
  have h : k % 4 = 0 ∨ k % 4 = 1 ∨ k % 4 = 2 ∨ k % 4 = 3 := by omega
  rcases h with h | h | h | h <;> simp [suggest_hidden_dim, suggest_categorical, h]

lemma suggest_batch_size_mem (k : Nat) :
    suggest_batch_size k ∈ ([2, 4, 8] : List Nat) := by
  have h : k % 3 = 0 ∨ k % 3 = 1 ∨ k % 3 = 2 := by omega
  rcases h with h | h | h <;> simp [suggest_batch_size, suggest_categorical, h]

lemma suggest_num_layer_mem (k : Nat) :
    suggest_num_layer k ∈ ([3, 4, 5, 6] : List Nat) := by
  have h : k % 4 = 0 ∨ k % 4 = 1 ∨ k % 4 = 2 ∨ k % 4 = 3 := by omega
  rcases h with h | h | h | h <;> simp [suggest_num_layer, suggest_int, h]

lemma suggest_iterations_mem (k : Nat) :
    suggest_iterations k ∈ ([100, 1000, 10000] : List Nat) := by
  have h : k % 3 = 0 ∨ k % 3 = 1 ∨ k % 3 = 2 := by omega
  rcases h with h | h | h <;> simp [suggest_iterations, suggest_categorical, h]

lemma suggest_seq_len_mem (k : Nat) :
    suggest_seq_len k ∈ ([1, 5, 10] : List Nat) := by
  have h : k % 3 = 0 ∨ k % 3 = 1 ∨ k % 3 = 2 := by omega
  rcases h with h | h | h <;> simp [suggest_seq_len, suggest_categorical, h]

/-! ### Helper lemmas about flattening uniform nested lists -/

lemma flatten_length_uniform {α : Type} (L : List (List α)) (s : Nat)
    (h : ∀ l ∈ L, l.length = s) : L.flatten.length = L.length * s := by
  induction L with
  | nil => simp
  | cons l L' ih =>
    have hl : l.length = s := h l (List.mem_cons_self _ _)
    have ih' := ih (fun x hx => h x (List.mem_cons_of_mem _ hx))
    simp only [List.flatten_cons, List.length_append, List.length_cons, hl, ih']
    ring

lemma flatten_getD_uniform {α : Type} (L : List (List α)) (s : Nat)
    (h : ∀ l ∈ L, l.length = s) (i j : Nat) (hi : i < L.length) (hj : j < s)
    (d : α) :
    L.flatten.getD (i * s + j) d = (L.getD i []).getD j d := by
  induction L generalizing i with
  | nil => simp at hi
  | cons l L' ih =>
    have hl : l.length = s := h l (List.mem_cons_self _ _)
    cases i with
    | zero =>
      have hj' : j < l.length := by omega
      simp only [List.flatten_cons, Nat.zero_mul, Nat.zero_add]
      rw [List.getD_append _ _ _ _ hj', List.getD_cons_zero]
    | succ i' =>
      have hi' : i' < L'.length := by
        simp only [List.length_cons] at hi; omega
      have harith : (i' + 1) * s + j = l.length + (i' * s + j) := by
        rw [hl]; ring
      rw [List.flatten_cons, harith,
          List.getD_append_right _ _ _ _ (Nat.le_add_right _ _),
          Nat.add_sub_cancel_left, List.getD_cons_succ]
      exact ih (fun x hx => h x (List.mem_cons_of_mem _ hx)) i' hi'

lemma getD_map_nil {α β : Type} (f : List α → List β) (hf : f [] = [])
    (L : List (List α)) (i : Nat) :
    (L.map f).getD i [] = f (L.getD i []) := by
  induction L generalizing i with
  | nil => simp [hf]
  | cons l L' ih =>
    cases i with
    | zero => simp [List.map_cons, List.getD_cons_zero]
    | succ i' =>
      simp only [List.map_cons, List.getD_cons_succ]
      exact ih i'

/-! ### Claim theorems -/

/-- C3 (amended): for every value of the `n_trials` argument, the study phase
of `run_TimeGAN` executes exactly `min n_trials 61` trials of the objective
function — `n_trials` of them when `n_trials ≤ 61`, but at most 61 because
the trial numbered 60 calls `trial.study.stop()` (lines 66-67) and the study
halts once that trial completes. -/
theorem c3_trial_count (env : Env) (oracles : Nat → Oracle) (n_trials : Nat) :
    (runStudy env oracles n_trials).1.length = min n_trials 61 := by
  rw [runStudy_eq, List.length_map, trialNums_length]

/-- C3 (counterexample): the claim "exactly `n_trials` trials run" fails at
`n_trials = 62`: in the concrete environment `envW` only 61 trials run,
because trial number 60 stops the study. -/
theorem c3_trial_count_counterexample :
    (runStudy envW oraclesW 62).1.length ≠ 62 := by
  rw [runStudy_eq, List.length_map, trialNums_length]
  norm_num

/-- C4: every suggested hyperparameter lies in its fixed finite domain
(lines 70-75), and the parameter dictionary passed to the GAN trainer
contains exactly the six suggested values (lines 81-87, used at line 93). -/
theorem c4_hyperparameter_domains (env : Env) (t : Nat) (orc : Oracle)
    (st : OptState) :
    suggest_module orc.k_module ∈ (["gru", "lstm", "lstmLN"] : List String) ∧
    suggest_hidden_dim orc.k_hidden ∈ ([6, 12, 24, 48] : List Nat) ∧
    suggest_batch_size orc.k_batch ∈ ([2, 4, 8] : List Nat) ∧
    suggest_num_layer orc.k_layer ∈ ([3, 4, 5, 6] : List Nat) ∧
    suggest_iterations orc.k_iterations ∈ ([100, 1000, 10000] : List Nat) ∧
    suggest_seq_len orc.k_seq ∈ ([1, 5, 10] : List Nat) ∧
    trialParams orc =
      [("module", PVal.s (suggest_module orc.k_module)),
       ("hidden_dim", PVal.n (suggest_hidden_dim orc.k_hidden)),
       ("num_layer", PVal.n (suggest_num_layer orc.k_layer)),
       ("iterations", PVal.n (suggest_iterations orc.k_iterations)),
       ("batch_size", PVal.n (suggest_batch_size orc.k_batch)),
       ("seq_len", PVal.n (suggest_seq_len orc.k_seq))] ∧
    (objective env t orc st).scores =
      env.evaluate
        (postprocess_data optMode
          (env.timegan (env.cut_data env.dataset_train (trialSeqLen orc))
            (trialParams orc))
          env.columns (trialSeqLen orc) env.shift_numbers)
        env.dataset_val :=
  ⟨suggest_module_mem _, suggest_hidden_dim_mem _, suggest_batch_size_mem _,
   suggest_num_layer_mem _, suggest_iterations_mem _, suggest_seq_len_mem _,
   rfl, by simp [objective_eq, trialScore]⟩

/-- C5: the trace of every trial is suggestion, reshaping, training,
scoring, and then (exactly on a strict improvement) checkpointing, in this
fixed order; no step ever precedes one listed before it. -/
theorem c5_trial_step_order (env : Env) (t : Nat) (orc : Oracle)
    (st : OptState) :
    (objective env t orc st).trace
        = [Step.suggest, Step.reshape, Step.train, Step.score] ∨
    (objective env t orc st).trace
        = [Step.suggest, Step.reshape, Step.train, Step.score, Step.checkpoint] := by
  rw [objective_eq]
  by_cases hc : trialScore env orc > st.best_scores
  · right; simp [hc]
  · left; simp [hc]

/-- C6: `objective` returns the score produced by evaluating the
postprocessed generated data against the validation set (line 99, returned
at line 109), and this same returned value is the one compared against the
running best for checkpointing (line 103). -/
theorem c6_objective_returns_eval_score (env : Env) (t : Nat) (orc : Oracle)
    (st : OptState) :
    (objective env t orc st).scores =
      env.evaluate
        (postprocess_data optMode
          (env.timegan (env.cut_data env.dataset_train (trialSeqLen orc))
            (trialParams orc))
          env.columns (trialSeqLen orc) env.shift_numbers)
        env.dataset_val ∧
    (objective env t orc st).state =
      (if (objective env t orc st).scores > st.best_scores then
        { best_scores := (objective env t orc st).scores, checkpoint := some t,
          attr_seq_len := some (trialSeqLen orc),
          attr_parameters := some (trialParams orc) }
       else st) := by
  constructor
  · simp [objective_eq, trialScore]
  · simp only [objective_eq]
    rfl

/-- C7: for every database name (and either value of `print_data`),
`test_samples` loads `test_data_schachtschneider.csv` and
`fake_data_<database_name>.csv`, builds a `TableEvaluator` on (test, fake)
with categorical columns `public_holiday` and `weekday`, runs the visual
evaluation and the regression evaluation with target `Lavandula`, and prints
the non-aggregated similarity scores of the fake data against the test
data. -/
theorem c7_test_samples_trace (database_name : String) (print_data : Bool) :
    (test_samples database_name print_data).filter (fun e => ! e.isPrintDf)
      = [EvalEvent.load test_path (fake_path database_name),
         EvalEvent.teInit test_path (fake_path database_name) cat_cols_sch,
         EvalEvent.visual_evaluation,
         EvalEvent.teEvaluate target_col_sch target_type_sch,
         EvalEvent.printScores (fake_path database_name) test_path false] := by
  cases print_data <;>
    simp [test_samples, EvalEvent.isPrintDf, List.filter]

/-- C10: the `print_data` flag of `test_samples` only controls whether the
two loaded dataframes are printed: the non-print events (and their inputs)
are identical for `print_data = True` and `print_data = False`, the
`False` run prints no dataframe, and the `True` run additionally prints
exactly the fake and the test dataframes. -/
theorem c10_print_flag_noninterference (database_name : String) :
    ((test_samples database_name true).filter (fun e => ! e.isPrintDf)
      = (test_samples database_name false).filter (fun e => ! e.isPrintDf)) ∧
    (test_samples database_name false).filter (fun e => e.isPrintDf) = [] ∧
    (test_samples database_name true).filter (fun e => e.isPrintDf)
      = [EvalEvent.printDf (fake_path database_name),
         EvalEvent.printDf test_path] := by
  refine ⟨?_, ?_, ?_⟩ <;> simp [test_samples, EvalEvent.isPrintDf, List.filter]

/-- C1: within a run, `objective` writes the checkpoint exactly when a
trial's score strictly exceeds the running `best_scores`, and — provided
some trial of the run scores above the initial `best_scores = 0`, so that a
checkpoint exists at all — the checkpoint persisted when the trials finish
is the one dumped during the trial with the maximal score of the run (the
first such trial in case of ties), with `best_scores` equal to that maximal
score. -/
theorem c1_best_model_checkpoint (env : Env) (oracles : Nat → Oracle)
    (n_trials t : Nat) (st : OptState)
    (h : ∃ i, i < min n_trials 61 ∧ 0 < scoreAt env oracles i) :
    (Step.checkpoint ∈ (objective env t (oracles t) st).trace ↔
      scoreAt env oracles t > st.best_scores) ∧
    ∃ j, j < min n_trials 61 ∧
      (runStudy env oracles n_trials).2.checkpoint = some j ∧
      (runStudy env oracles n_trials).2.best_scores = scoreAt env oracles j ∧
      (∀ i, i < min n_trials 61 → scoreAt env oracles i ≤ scoreAt env oracles j) ∧
      (∀ i, i < j → scoreAt env oracles i < scoreAt env oracles j) := by
  constructor
  · rw [objective_eq]
    by_cases hc : trialScore env (oracles t) > st.best_scores <;>
      simp [hc, scoreAt]
  · obtain ⟨j, hj, hck, hbest, _, _, _, hmax, hfirst⟩ :=
      foldTrials_argmax env oracles (min n_trials 61) h
    rw [runStudy_eq]
    exact ⟨j, hj, hck, hbest, hmax, hfirst⟩

/-- C1 (witness): the concrete run `runStudy envW oraclesW 1`, whose single
trial scores 1 > 0, satisfies the theorem. -/
theorem c1_best_model_checkpoint_witness :
    (Step.checkpoint ∈ (objective envW 0 (oraclesW 0) initState).trace ↔
      scoreAt envW oraclesW 0 > initState.best_scores) ∧
    ∃ j, j < min 1 61 ∧
      (runStudy envW oraclesW 1).2.checkpoint = some j ∧
      (runStudy envW oraclesW 1).2.best_scores = scoreAt envW oraclesW j ∧
      (∀ i, i < min 1 61 → scoreAt envW oraclesW i ≤ scoreAt envW oraclesW j) ∧
      (∀ i, i < j → scoreAt envW oraclesW i < scoreAt envW oraclesW j) :=
  c1_best_model_checkpoint envW oraclesW 1 0 initState
    ⟨0, by norm_num, by norm_num [scoreAt, trialScore, envW]⟩

/-- C2: provided some trial of the run scores above 0 (so the checkpoint and
the `objective.seq_len`/`objective.parameters` attributes exist),
`run_TimeGAN` succeeds, and its final generation phase cuts the full dataset
with the best trial's sequence length, generates with the best trial's
parameter set — the trial `j` with the maximal score of the run, i.e. the
one the study reports as best — and writes the postprocessed result as the
fake-data CSV content. -/
theorem c2_final_generation_uses_best (env : Env) (oracles : Nat → Oracle)
    (n_trials : Nat)
    (h : ∃ i, i < min n_trials 61 ∧ 0 < scoreAt env oracles i) :
    ∃ j out, j < min n_trials 61 ∧
      run_TimeGAN env oracles n_trials = some out ∧
      (∀ i, i < min n_trials 61 → scoreAt env oracles i ≤ scoreAt env oracles j) ∧
      (∀ i, i < j → scoreAt env oracles i < scoreAt env oracles j) ∧
      out.gen_seq_len = trialSeqLen (oracles j) ∧
      out.gen_parameters = trialParams (oracles j) ∧
      out.fake_csv = postprocess_data evalMode
        (env.timegan (env.cut_data env.dataset (trialSeqLen (oracles j)))
          (trialParams (oracles j)))
        env.columns (trialSeqLen (oracles j)) env.shift_numbers := by
  obtain ⟨j, hj, hck, hbest, hseq, hpar, hpos, hmax, hfirst⟩ :=
    foldTrials_argmax env oracles (min n_trials 61) h
  have hck' : (runStudy env oracles n_trials).2.checkpoint = some j := by
    rw [runStudy_eq]; exact hck
  have hseq' : (runStudy env oracles n_trials).2.attr_seq_len
      = some (trialSeqLen (oracles j)) := by
    rw [runStudy_eq]; exact hseq
  have hpar' : (runStudy env oracles n_trials).2.attr_parameters
      = some (trialParams (oracles j)) := by
    rw [runStudy_eq]; exact hpar
  refine ⟨j, { scores := (runStudy env oracles n_trials).1,
               finalState := (runStudy env oracles n_trials).2,
               gen_seq_len := trialSeqLen (oracles j),
               gen_parameters := trialParams (oracles j),
               fake_csv := postprocess_data evalMode
                 (env.timegan (env.cut_data env.dataset (trialSeqLen (oracles j)))
                   (trialParams (oracles j)))
                 env.columns (trialSeqLen (oracles j)) env.shift_numbers },
          hj, ?_, hmax, hfirst, rfl, rfl, rfl⟩
  simp only [run_TimeGAN, hck', hseq', hpar']

/-- C2 (witness): the concrete run `run_TimeGAN envW oraclesW 1` satisfies
the theorem. -/
theorem c2_final_generation_uses_best_witness :
    ∃ j out, j < min 1 61 ∧
      run_TimeGAN envW oraclesW 1 = some out ∧
      (∀ i, i < min 1 61 → scoreAt envW oraclesW i ≤ scoreAt envW oraclesW j) ∧
      (∀ i, i < j → scoreAt envW oraclesW i < scoreAt envW oraclesW j) ∧
      out.gen_seq_len = trialSeqLen (oraclesW j) ∧
      out.gen_parameters = trialParams (oraclesW j) ∧
      out.fake_csv = postprocess_data evalMode
        (envW.timegan (envW.cut_data envW.dataset (trialSeqLen (oraclesW j)))
          (trialParams (oraclesW j)))
        envW.columns (trialSeqLen (oraclesW j)) envW.shift_numbers :=
  c2_final_generation_uses_best envW oraclesW 1
    ⟨0, by norm_num, by norm_num [scoreAt, trialScore, envW]⟩

/-- C9: the global `best_scores` starts at 0 and never decreases; a trial
updates the checkpoint, `objective.seq_len` and `objective.parameters`
exactly when its score strictly exceeds the running `best_scores`; hence in
any state with non-negative `best_scores` (as holds throughout a run), a
trial scoring at most 0 changes nothing and dumps no checkpoint, even if it
is the best trial of the run. -/
theorem c9_best_scores_invariant (env : Env) (oracles : Nat → Oracle)
    (n t : Nat) (orc : Oracle) (st : OptState)
    (hst : 0 ≤ st.best_scores) :
    initState.best_scores = 0 ∧
    st.best_scores ≤ (objective env t orc st).state.best_scores ∧
    (objective env t orc st).state =
      (if trialScore env orc > st.best_scores then
        { best_scores := trialScore env orc, checkpoint := some t,
          attr_seq_len := some (trialSeqLen orc),
          attr_parameters := some (trialParams orc) }
       else st) ∧
    (Step.checkpoint ∈ (objective env t orc st).trace ↔
      trialScore env orc > st.best_scores) ∧
    (trialScore env orc ≤ 0 →
      (objective env t orc st).state = st ∧
      Step.checkpoint ∉ (objective env t orc st).trace) ∧
    0 ≤ (runStudy env oracles n).2.best_scores := by
  have hnotlt : trialScore env orc ≤ 0 →
      ¬ trialScore env orc > st.best_scores :=
    fun hle => not_lt.mpr (le_trans hle hst)
  refine ⟨rfl, ?_, ?_, ?_, ?_, ?_⟩
  · rw [objective_eq]
    by_cases hc : trialScore env orc > st.best_scores
    · simp only [stepState, if_pos hc]
      exact le_of_lt hc
    · simp only [stepState, if_neg hc]
      exact le_refl _
  · rw [objective_eq]
    rfl
  · rw [objective_eq]
    by_cases hc : trialScore env orc > st.best_scores <;> simp [hc]
  · intro hle
    rw [objective_eq]
    constructor
    · simp only [stepState, if_neg (hnotlt hle)]
    · simp [if_neg (hnotlt hle)]
  · rw [runStudy_eq]
    exact foldTrials_best_mono env oracles _ initState

/-- C9 (witness): in the concrete environment `envNeg` every trial scores
-1 ≤ 0, and the theorem applies at the initial state. -/
theorem c9_best_scores_invariant_witness :
    initState.best_scores = 0 ∧
    initState.best_scores ≤
      (objective envNeg 0 (oraclesW 0) initState).state.best_scores ∧
    (objective envNeg 0 (oraclesW 0) initState).state =
      (if trialScore envNeg (oraclesW 0) > initState.best_scores then
        { best_scores := trialScore envNeg (oraclesW 0), checkpoint := some 0,
          attr_seq_len := some (trialSeqLen (oraclesW 0)),
          attr_parameters := some (trialParams (oraclesW 0)) }
       else initState) ∧
    (Step.checkpoint ∈ (objective envNeg 0 (oraclesW 0) initState).trace ↔
      trialScore envNeg (oraclesW 0) > initState.best_scores) ∧
    (trialScore envNeg (oraclesW 0) ≤ 0 →
      (objective envNeg 0 (oraclesW 0) initState).state = initState ∧
      Step.checkpoint ∉ (objective envNeg 0 (oraclesW 0) initState).trace) ∧
    0 ≤ (runStudy envNeg oraclesW 1).2.best_scores :=
  c9_best_scores_invariant envNeg oraclesW 1 0 (oraclesW 0) initState
    (le_refl 0)

/-- C8 (amended): for a generated array of shape (n, s, c) whose post-slice
row width matches the number of column labels — the width being `c` when
`shift_numbers` is `(0,)` and `pySliceEnd c (len shift_numbers)` otherwise,
i.e. `c - len shift_numbers` when `len shift_numbers ≥ 1` but `0` for the
empty tuple, since the Python slice `[:, :, :-0]` is `[:, :, :0]` —
`postprocess_data` returns (rather than raising `ValueError` at line 43) a
DataFrame labelled with the given columns, with exactly `n * s` rows, whose
row at position `i * s + j` is `generated_data[i, j, :]` cut to that width,
rows in increasing lexicographic (i, j) order. -/
theorem c8_postprocess_shape (eval_or_opt : String) (generated_data : Cube)
    (columns : List String) (seq_len : Nat) (shift_numbers : List Int)
    (n s c i j : Nat)
    (hn : generated_data.length = n)
    (hs : ∀ mat ∈ generated_data, mat.length = s)
    (hc : ∀ mat ∈ generated_data, ∀ row ∈ mat, row.length = c)
    (hi : i < n) (hj : j < s)
    (hw : (if shift_numbers ≠ [(0 : Int)] then
            pySliceEnd c shift_numbers.length else c) = columns.length) :
    postprocess_data_checked eval_or_opt generated_data columns seq_len
        shift_numbers
      = some (postprocess_data eval_or_opt generated_data columns seq_len
          shift_numbers) ∧
    (postprocess_data eval_or_opt generated_data columns seq_len
        shift_numbers).columns = columns ∧
    (postprocess_data eval_or_opt generated_data columns seq_len
        shift_numbers).rows.length = n * s ∧
    (postprocess_data eval_or_opt generated_data columns seq_len
        shift_numbers).rows.getD (i * s + j) []
      = (if shift_numbers ≠ [(0 : Int)] then
          ((generated_data.getD i []).getD j []).take
            (pySliceEnd c shift_numbers.length)
         else (generated_data.getD i []).getD j []) := by
  have hple : pySliceEnd c shift_numbers.length ≤ c := by
    unfold pySliceEnd; split <;> omega
  have hrows_pos : shift_numbers ≠ [(0 : Int)] →
      (postprocess_data eval_or_opt generated_data columns seq_len
        shift_numbers).rows
        = (generated_data.map (fun mat => mat.map (fun row =>
            row.take (pySliceEnd row.length shift_numbers.length)))).flatten := by
    intro hsh; simp [postprocess_data, hsh]
  have hrows_neg : ¬ shift_numbers ≠ [(0 : Int)] →
      (postprocess_data eval_or_opt generated_data columns seq_len
        shift_numbers).rows = generated_data.flatten := by
    intro hsh; simp [postprocess_data, hsh]
  have hwidth : ∀ row ∈ (postprocess_data eval_or_opt generated_data columns
      seq_len shift_numbers).rows, row.length = columns.length := by
    intro row hrow
    by_cases hsh : shift_numbers ≠ [(0 : Int)]
    · rw [hrows_pos hsh, List.mem_flatten] at hrow
      obtain ⟨mat', hmat', hrow'⟩ := hrow
      obtain ⟨mat, hmat, rfl⟩ := List.mem_map.mp hmat'
      obtain ⟨r, hr, rfl⟩ := List.mem_map.mp hrow'
      have hrc : r.length = c := hc mat hmat r hr
      rw [← hw, if_pos hsh]
      simp [List.length_take, hrc, Nat.min_eq_left hple]
    · rw [hrows_neg hsh, List.mem_flatten] at hrow
      obtain ⟨mat, hmat, hrow'⟩ := hrow
      rw [← hw, if_neg hsh]
      exact hc mat hmat row hrow'
  refine ⟨?_, ?_⟩
  · simp only [postprocess_data_checked, pdDataFrame, if_pos hwidth]
    rfl
  have hrowlen : ((generated_data.getD i []).getD j []).length = c := by
    have hmat : generated_data.getD i [] ∈ generated_data := by
      rw [List.getD_eq_getElem _ _ (by omega : i < generated_data.length)]
      exact List.getElem_mem _
    have hrow : (generated_data.getD i []).getD j []
        ∈ generated_data.getD i [] := by
      rw [List.getD_eq_getElem _ _
        (by rw [hs _ hmat]; omega : j < (generated_data.getD i []).length)]
      exact List.getElem_mem _
    exact hc _ hmat _ hrow
  by_cases hsh : shift_numbers ≠ [(0 : Int)]
  · have hpp : postprocess_data eval_or_opt generated_data columns seq_len
        shift_numbers
        = { columns := columns,
            rows := (generated_data.map (fun mat => mat.map
              (fun row => row.take
                (pySliceEnd row.length shift_numbers.length)))).flatten } := by
      simp [postprocess_data, hsh]
    have hs' : ∀ mat' ∈ generated_data.map (fun mat => mat.map
        (fun row => row.take (pySliceEnd row.length shift_numbers.length))),
        mat'.length = s := by
      intro mat' hm
      obtain ⟨mat, hmat, rfl⟩ := List.mem_map.mp hm
      simpa using hs mat hmat
    have hlen : i < (generated_data.map (fun mat => mat.map
        (fun row => row.take
          (pySliceEnd row.length shift_numbers.length)))).length := by
      simpa [hn] using hi
    rw [hpp, if_pos hsh]
    refine ⟨rfl, ?_, ?_⟩
    · rw [flatten_length_uniform _ s hs', List.length_map, hn]
    · rw [flatten_getD_uniform _ s hs' i j hlen hj,
          getD_map_nil _ (by simp) generated_data i,
          getD_map_nil _ (by simp) (generated_data.getD i []) j,
          hrowlen]
  · have hpp : postprocess_data eval_or_opt generated_data columns seq_len
        shift_numbers
        = { columns := columns, rows := generated_data.flatten } := by
      simp [postprocess_data, hsh]
    rw [hpp, if_neg hsh]
    refine ⟨rfl, ?_, ?_⟩
    · rw [flatten_length_uniform _ s hs, hn]
    · exact flatten_getD_uniform _ s hs i j (by omega) hj []

/-- C8 (witness): a concrete (1, 2, 2) array with `shift_numbers = (0,)`
and two column labels, so the width check of line 43 passes. -/
theorem c8_postprocess_shape_witness :
    postprocess_data_checked optMode [[[(1 : ℚ), 2], [3, 4]]] ["a", "b"] 5
        ([0] : List Int)
      = some (postprocess_data optMode [[[(1 : ℚ), 2], [3, 4]]] ["a", "b"] 5
          ([0] : List Int)) ∧
    (postprocess_data optMode [[[(1 : ℚ), 2], [3, 4]]] ["a", "b"] 5
        ([0] : List Int)).columns = ["a", "b"] ∧
    (postprocess_data optMode [[[(1 : ℚ), 2], [3, 4]]] ["a", "b"] 5
        ([0] : List Int)).rows.length = 1 * 2 ∧
    (postprocess_data optMode [[[(1 : ℚ), 2], [3, 4]]] ["a", "b"] 5
        ([0] : List Int)).rows.getD (0 * 2 + 1) []
      = (if ([0] : List Int) ≠ [(0 : Int)] then
          (([[[(1 : ℚ), 2], [3, 4]]].getD 0 []).getD 1 []).take
            (pySliceEnd 2 ([0] : List Int).length)
         else ([[[(1 : ℚ), 2], [3, 4]]].getD 0 []).getD 1 []) :=
  c8_postprocess_shape optMode [[[(1 : ℚ), 2], [3, 4]]] ["a", "b"] 5
    ([0] : List Int) 1 2 2 0 1 (by decide) (by decide) (by decide)
    (by decide) (by decide) (by decide)

/-- C8 (counterexample): the claim as stated says that for a `shift_numbers`
tuple other than `(0,)` a DataFrame is returned whose rows keep all but the
last `len shift_numbers` feature columns — for the empty tuple, all of
them.  On the concrete input `generated_data = [[[1, 2]]]` with
`shift_numbers = ()` and columns `["a", "b"]`, the slice
`[:, :, : 0 * -1] = [:, :, :0]` (line 34) instead empties every row, and
`pd.DataFrame(data=[[]], columns=["a", "b"])` at line 43 then raises
`ValueError` (2 labels for width-0 data): no DataFrame is returned at all,
and in particular not one with the claimed row `[1, 2]`. -/
theorem c8_postprocess_counterexample :
    postprocess_data_checked optMode [[[(1 : ℚ), 2]]] ["a", "b"] 1
        ([] : List Int) = none ∧
    postprocess_data_checked optMode [[[(1 : ℚ), 2]]] ["a", "b"] 1
        ([] : List Int)
      ≠ some { columns := ["a", "b"], rows := [[(1 : ℚ), 2]] } := by
  constructor <;> decide

end TimeGANOpt
